import Mathlib

/-!
Verification of the Infinity-Backend service skeleton.

The development shallowly embeds the TypeScript sources: JavaScript values
are modelled by `JsValue` (numbers as rationals, objects as ordered field
lists), Express responses by a status/body pair, and each middleware or
handler by a pure Lean function.  Implementation files that are absent from
the source tree (`errorHandler.middleware.ts`, `APIError.ts`,
`APIResponse.ts`, `asyncHandler.util.ts`, `rateLimiter.middleware.ts`,
`errorCodes.const.ts`) are modelled from the specification, with their
behaviour pinned by the repository's own unit and integration tests.
-/

namespace Infinity

/-- A JavaScript runtime value, as far as the service's request/response
layer observes it: `null`, `undefined`, booleans, numbers (JS numbers are
modelled as rationals), strings, and objects as ordered association lists
of fields.  Thrown `Error` instances are objects with `message`/`stack`
fields. -/
inductive JsValue where
  | vNull
  | vUndefined
  | vBool (b : Bool)
  | vNum (q : ℚ)
  | vStr (s : String)
  | vObj (fields : List (String × JsValue))

/-- Property access `v[k]`: `some` the field value on objects that carry the
field, `none` otherwise (JS would yield `undefined`). -/
def JsValue.getField : JsValue → String → Option JsValue
  | .vObj fs, k => fs.lookup k
  | _, _ => none

/-- `typeof v[k] === "number" ? v[k] : none` — the numeric value of field
`k`, when present and a number. -/
def JsValue.getNumField (v : JsValue) (k : String) : Option ℚ :=
  match v.getField k with
  | some (.vNum q) => some q
  | _ => none

/-- `typeof v[k] === "string" ? v[k] : none` — the string value of field
`k`, when present and a string. -/
def JsValue.getStrField (v : JsValue) (k : String) : Option String :=
  match v.getField k with
  | some (.vStr s) => some s
  | _ => none

/-- The three values of `NODE_ENV` admitted by the Zod schema in
`env.config.ts`. -/
inductive EnvMode where
  | development
  | production
  | test
deriving DecidableEq, Repr

/-- `HTTP_STATUS_CODES` from `src/constants/httpStatusCodes.const.ts`. -/
def HTTP_STATUS_CODES_OK : ℚ := 200
def HTTP_STATUS_CODES_CREATED : ℚ := 201
def HTTP_STATUS_CODES_BAD_REQUEST : ℚ := 400
def HTTP_STATUS_CODES_UNAUTHORIZED : ℚ := 401
def HTTP_STATUS_CODES_NOT_FOUND : ℚ := 404
def HTTP_STATUS_CODES_CONFLICT : ℚ := 409
def HTTP_STATUS_CODES_INTERNAL_SERVER_ERROR : ℚ := 500
def HTTP_STATUS_CODES_TOO_MANY_REQUESTS : ℚ := 429

/-- The success envelope `{success: true, message, data}` sent by
`APIResponse.send` (field order as serialised by the class). -/
def successBody (message : String) (data : JsValue) : JsValue :=
  .vObj [("success", .vBool true), ("message", .vStr message), ("data", data)]

/-- The failure envelope `{success: false, message, errorCode, details}`
produced by `APIError.toResponse` and by the error-handling middleware. -/
def failureBody (message : String) (errorCode : String) (details : JsValue) : JsValue :=
  .vObj [("success", .vBool false), ("message", .vStr message),
         ("errorCode", .vStr errorCode), ("details", details)]

/-- Structural test: is the body exactly the success envelope
`{success: true, message: <string>, data: <anything>}`? -/
def isSuccessEnvelope : JsValue → Bool
  | .vObj [("success", .vBool true), ("message", .vStr _), ("data", _)] => true
  | _ => false

/-- Structural test: is the body exactly the failure envelope
`{success: false, message: <string>, errorCode: <string>, details}`? -/
def isFailureEnvelope : JsValue → Bool
  | .vObj [("success", .vBool false), ("message", .vStr _),
           ("errorCode", .vStr _), ("details", _)] => true
  | _ => false

/-- Modelled from the spec: `src/constants/errorCodes.const.ts` is not in
the source tree.  The error codes exercised by the repository's unit and
integration tests are the string constants below. -/
def ERROR_CODES_BAD_REQUEST : String := "BAD_REQUEST"
def ERROR_CODES_UNAUTHORIZED : String := "UNAUTHORIZED"
def ERROR_CODES_NOT_FOUND : String := "NOT_FOUND"
def ERROR_CODES_CONFLICT : String := "CONFLICT"
def ERROR_CODES_INTERNAL_ERROR : String := "INTERNAL_ERROR"
def ERROR_CODES_UNEXPECTED_ERROR : String := "UNEXPECTED_ERROR"

/-- Modelled from the spec: `src/core/APIError.ts` is not in the source
tree.  Per the spec's error-taxonomy description and the `APIError` unit
tests, an `APIError` carries a message (default "Internal Server Error"),
an HTTP status code (default 500), an error code (default
`INTERNAL_ERROR`) and optional details (default `null`). -/
structure APIError where
  message : String := "Internal Server Error"
  statusCode : ℚ := 500
  errorCode : String := "INTERNAL_ERROR"
  details : JsValue := .vNull

/-- `APIError.toResponse()` — the standardized failure envelope of the
error, per the `APIError` unit tests. -/
def APIError.toResponse (e : APIError) : JsValue :=
  failureBody e.message e.errorCode e.details

/-- `APIError.throwBadRequest` — throws a 400 `BAD_REQUEST` error (the
thrown value is returned). -/
def APIError.throwBadRequest (message : String := "Bad Request")
    (details : JsValue := .vNull) : APIError :=
  ⟨message, 400, ERROR_CODES_BAD_REQUEST, details⟩

/-- `APIError.throwUnauthorized` — throws a 401 `UNAUTHORIZED` error. -/
def APIError.throwUnauthorized (message : String := "Unauthorized")
    (details : JsValue := .vNull) : APIError :=
  ⟨message, 401, ERROR_CODES_UNAUTHORIZED, details⟩

/-- `APIError.throwNotFound` — throws a 404 `NOT_FOUND` error. -/
def APIError.throwNotFound (message : String := "Not Found")
    (details : JsValue := .vNull) : APIError :=
  ⟨message, 404, ERROR_CODES_NOT_FOUND, details⟩

/-- `APIError.throwConflict` — throws a 409 `CONFLICT` error. -/
def APIError.throwConflict (message : String := "Conflict")
    (details : JsValue := .vNull) : APIError :=
  ⟨message, 409, ERROR_CODES_CONFLICT, details⟩

/-- `APIError.throwInternal` — throws a 500 `INTERNAL_ERROR` error. -/
def APIError.throwInternal (message : String := "Internal Server Error")
    (details : JsValue := .vNull) : APIError :=
  ⟨message, 500, ERROR_CODES_INTERNAL_ERROR, details⟩

/-- A value reaching the error-handling middleware: either an `APIError`
instance (the `err instanceof APIError` branch) or any other JavaScript
value. -/
inductive Thrown where
  | apiError (e : APIError)
  | other (v : JsValue)

/-- Modelled from the spec:
`src/middlewares/errorHandler.middleware.ts` is not in the source tree.
Per the spec's rule (b) as pinned field-by-field by the error-handler
integration tests: an `APIError` is rendered with its own status and
`toResponse()` body; any other thrown value is rendered with its numeric
`statusCode` field if it has one (500 otherwise), its string `message`
field if it has one ("Internal Server Error" otherwise), error code
`UNEXPECTED_ERROR`, and details that expose the stack trace and original
error only in development mode (`null` otherwise).  The result is the
HTTP status together with the JSON body. -/
def errorHandler (mode : EnvMode) (err : Thrown) : ℚ × JsValue :=
  match err with
  | .apiError e => (e.statusCode, e.toResponse)
  | .other v =>
      let statusCode : ℚ :=
        match v.getNumField "statusCode" with
        | some q => q
        | none => 500
      let message : String :=
        match v.getStrField "message" with
        | some s => s
        | none => "Internal Server Error"
      let details : JsValue :=
        if mode = .development then
          .vObj [("stack", (v.getField "stack").getD .vNull), ("originalError", v)]
        else
          .vNull
      (statusCode, failureBody message ERROR_CODES_UNEXPECTED_ERROR details)

/-- The "expected shape" of the spec's rule (b), written from the spec's
words for comparison with the handler: a value structurally matches the
shape of a typed API error when it carries a numeric `statusCode`, a
string `message` and a string `errorCode`. -/
def matchesAPIErrorShape (v : JsValue) : Bool :=
  (v.getNumField "statusCode").isSome && (v.getStrField "message").isSome
    && (v.getStrField "errorCode").isSome

/-- Modelled from the spec: `src/core/APIResponse.ts` is not in the source
tree.  Per the spec's envelope description and the `APIResponse` unit
tests, `send` writes `res.status(statusCode).json({success: true, message,
data})`; a response is modelled as the status/body pair. -/
structure APIResponse where
  success : Bool := true
  message : String := "success"
  data : JsValue := .vNull
  statusCode : ℚ := 200

/-- `APIResponse#send(res)` — the wire form of the success response. -/
def APIResponse.send (r : APIResponse) : ℚ × JsValue :=
  (r.statusCode, successBody r.message r.data)

/-- `APIResponse.ok(res, data, message)` — 200 OK helper (message defaults
to "OK", data to `null`), per the `APIResponse` unit tests. -/
def APIResponse.ok (data : JsValue := .vNull) (message : String := "OK") : ℚ × JsValue :=
  APIResponse.send { message := message, data := data, statusCode := 200 }

/-- `APIResponse.created(res, data, message)` — 201 Created helper. -/
def APIResponse.created (data : JsValue := .vNull)
    (message : String := "Resource created") : ℚ × JsValue :=
  APIResponse.send { message := message, data := data, statusCode := 201 }

/-! ## Rate limiter -/

/-- The canned body sent on a rate-limited request, from the
`message` option of the limiter configuration mirrored in
`rateLimiter.integration.test.ts`: `{success: false, message: "Too many
requests from this IP, please try again later."}` — note it has no
`errorCode` and no `details` field. -/
def rateLimitMessage : JsValue :=
  .vObj [("success", .vBool false),
         ("message", .vStr "Too many requests from this IP, please try again later.")]

/-- Modelled from the spec: `src/middlewares/rateLimiter.middleware.ts` is
not in the source tree.  The global limiter's per-window maximum, mirrored
by `createFreshRateLimiter` in the integration tests: 500 in development,
100 otherwise. -/
def globalRateLimiterMax (mode : EnvMode) : Nat :=
  if mode = .development then 500 else 100

/-- The limiter's window state: hit count per client IP for the current
window. -/
def RLState := String → Nat

/-- Fresh window: every IP at zero hits. -/
def rlInit : RLState := fun _ => 0

/-- Record one hit for `ip`. -/
def bumpState (s : RLState) (ip : String) : RLState :=
  fun j => if j = ip then s j + 1 else s j

/-- Modelled from the spec: one step of the `express-rate-limit` counter
used as the single global rate limiter.  A request from `ip` whose count
is below the configured maximum passes (`none`) and is counted; otherwise
the limiter answers 429 with the canned `rateLimitMessage` body. -/
def rlStep (maxReq : Nat) (s : RLState) (ip : String) : RLState × Option (ℚ × JsValue) :=
  if s ip < maxReq then (bumpState s ip, none)
  else (s, some (429, rateLimitMessage))

/-- Fold `rlStep` over a request sequence (IPs in arrival order), yielding
the window state afterwards. -/
def rlFinal (maxReq : Nat) : List String → RLState → RLState
  | [], s => s
  | j :: rest, s => rlFinal maxReq rest (rlStep maxReq s j).1

/-- How many requests from `ip` in the sequence pass the limiter. -/
def rlAllowedFor (maxReq : Nat) (ip : String) : List String → RLState → Nat
  | [], _ => 0
  | j :: rest, s =>
      (if j = ip ∧ (rlStep maxReq s j).2.isNone then 1 else 0)
        + rlAllowedFor maxReq ip rest (rlStep maxReq s j).1

/-! ## Routes and the app pipeline (`app.ts`, `routes/`) -/

/-- The middleware/handler stages `app.ts` installs, in source order. -/
inductive Middleware where
  | morganLogging
  | jsonParser
  | urlencodedParser
  | cookieParserMW
  | corsMW
  | helmetMW
  | rateLimiter
  | apiRouter
  | notFoundCatchAll
  | errorHandlerMW
deriving DecidableEq, Repr

/-- The `app.use` sequence of `app.ts`: logging, body/cookie parsers,
CORS, helmet, the global rate limiter, the `/api/v1` router, the 404
catch-all, and the error handler. -/
def appPipeline : List Middleware :=
  [.morganLogging, .jsonParser, .urlencodedParser, .cookieParserMW, .corsMW,
   .helmetMW, .rateLimiter, .apiRouter, .notFoundCatchAll, .errorHandlerMW]

/-- The routes registered under `/api/v1` (`routes/index.ts`): the system
routes `GET /health` and `GET /info`, and the docs routes
`GET /openapi.json` and the Swagger UI under `/docs`. -/
inductive Route where
  | health
  | info
  | openapi
  | docsUi
deriving DecidableEq, Repr

/-- Express routing for the app: which registered route (if any) a
method/path pair hits. -/
def routeMatch (method path : String) : Option Route :=
  if method == "GET" && path == "/api/v1/health" then some .health
  else if method == "GET" && path == "/api/v1/info" then some .info
  else if method == "GET" && path == "/api/v1/openapi.json" then some .openapi
  else if path == "/api/v1/docs" || List.isPrefixOf "/api/v1/docs/".data path.data then some .docsUi
  else none

/-- JS truncation of a rational toward zero (the rounding of the `%`
operator's implied division). -/
def ratTrunc (q : ℚ) : ℤ := Int.sign q.num * (q.num.natAbs / q.den : ℕ)

/-- The JavaScript remainder operator `a % b`:
`a - b * trunc(a / b)`. -/
def jsRem (a b : ℚ) : ℚ := a - b * ratTrunc (a / b)

/-- The uptime string of the health handler
(`system.routes.ts`): `Math.floor(uptime / 60)` minutes and
`Math.floor(uptime % 60)` seconds. -/
def formatUptime (uptime : ℚ) : String :=
  toString ⌊uptime / 60⌋ ++ "m " ++ toString ⌊jsRem uptime 60⌋ ++ "s"

/-- `GET /health` (`system.routes.ts`): 200 OK with message
"Service is healthy" and `{uptimeSeconds, uptimeFormatted}`. -/
def healthHandler (uptime : ℚ) : ℚ × JsValue :=
  APIResponse.ok
    (.vObj [("uptimeSeconds", .vNum uptime),
            ("uptimeFormatted", .vStr (formatUptime uptime))])
    "Service is healthy"

/-- JavaScript `s || dflt` on an optional string: the default replaces a
missing or empty (falsy) string. -/
def jsOrString (v : Option String) (dflt : String) : String :=
  match v with
  | some s => if s == "" then dflt else s
  | none => dflt

/-- The `NODE_ENV` string of a mode. -/
def modeString : EnvMode → String
  | .development => "development"
  | .production => "production"
  | .test => "test"

/-- `GET /info` (`system.routes.ts`): 200 with name, version
(`npm_package_version || "unknown"`) and environment. -/
def infoHandler (mode : EnvMode) (npmPackageVersion : Option String) : ℚ × JsValue :=
  APIResponse.ok
    (.vObj [("name", .vStr "infinity-backend"),
            ("version", .vStr (jsOrString npmPackageVersion "unknown")),
            ("env", .vStr (modeString mode))])

/-- The OpenAPI document served by `GET /openapi.json`
(`docs.routes.ts`/`swagger.ts`), abbreviated to the identifying fields of
`swagger.ts` — not an envelope. -/
def swaggerSpecValue (npmPackageVersion : Option String) : JsValue :=
  .vObj [("openapi", .vStr "3.1.0"),
         ("info", .vObj [("title", .vStr "Infinity Backend API"),
                         ("version", .vStr (jsOrString npmPackageVersion "1.0.0"))])]

/-- The Swagger UI page served under `/docs` — an HTML document, not an
envelope. -/
def docsHtmlPage : String := "Infinity Backend API Docs"

/-- One request through the whole `app.ts` pipeline.  `limited` says
whether the global rate limiter blocks this request (its counter is at the
maximum for this client's IP); otherwise the router dispatches, and an
unmatched request falls through to the 404 catch-all, which throws
`APIError.throwNotFound("Resource not found")` into the error handler. -/
def appRespond (mode : EnvMode) (limited : Bool) (uptime : ℚ)
    (npmPackageVersion : Option String) (method path : String) : ℚ × JsValue :=
  if limited then (429, rateLimitMessage)
  else
    match routeMatch method path with
    | some .health => healthHandler uptime
    | some .info => infoHandler mode npmPackageVersion
    | some .openapi => (200, swaggerSpecValue npmPackageVersion)
    | some .docsUi => (200, .vStr docsHtmlPage)
    | none => errorHandler mode (.apiError (APIError.throwNotFound "Resource not found"))

/-! ## Database bootstrap (`db.config.ts`, `server.ts`) -/

/-- The fields of the validated environment used by the database
bootstrap (`env.config.ts`). -/
structure EnvConfig where
  NODE_ENV : EnvMode
  PORT : ℚ
  MONGODB_URI : String
  DB_NAME : String

/-- The resolved Mongoose connection instance (the part `server.ts`
observes). -/
structure MongooseInstance where
  host : String

/-- The connection URI `connectDB` builds. -/
def mongoUri (e : EnvConfig) : String := e.MONGODB_URI ++ "/" ++ e.DB_NAME

/-- `connectDB` from `db.config.ts`, with the Mongoose driver abstracted
as an oracle from URIs to outcomes.  Returns the list of URIs the driver
was called with together with the result: a single `mongoose.connect` on
`MONGODB_URI + "/" + DB_NAME`; on success the connection instance is
returned, on failure the error is logged and rethrown unchanged. -/
def connectDBRun (e : EnvConfig) (driver : String → Except JsValue MongooseInstance) :
    List String × Except JsValue MongooseInstance :=
  let uri := mongoUri e
  match driver uri with
  | .ok connectionInstance => ([uri], .ok connectionInstance)
  | .error err => ([uri], .error err)

/-- The observable outcome of `startServer` in `server.ts`. -/
inductive ServerStart where
  | listening (port : ℚ)
  | exited (code : Nat)

/-- `startServer` from `server.ts`: await `connectDB()`; on success listen
on `PORT`, on any error log and `process.exit(1)`. -/
def startServer (e : EnvConfig) (driver : String → Except JsValue MongooseInstance) :
    ServerStart :=
  match (connectDBRun e driver).2 with
  | .ok _ => .listening e.PORT
  | .error _ => .exited 1

/-! ## `asyncHandler` -/

/-- The settled outcome of invoking a (possibly async) Express handler:
the promise `Promise.resolve(fn(req, res, next))` either fulfils with a
value or rejects with a thrown/rejected value. -/
inductive HandlerOutcome where
  | resolves (v : JsValue)
  | rejects (v : JsValue)

/-- `promise.catch(handler)`: the handler's effect happens exactly on
rejection, with the rejection value. -/
def promiseCatch (p : HandlerOutcome) (handler : JsValue → List JsValue) : List JsValue :=
  match p with
  | .resolves _ => []
  | .rejects e => handler e

/-- Modelled from the spec: `src/utils/asyncHandler.util.ts` is not in the
source tree.  Per its unit tests, `asyncHandler(fn)` wraps a handler so
that `Promise.resolve(fn(req, res, next)).catch(next)`; the result here is
the list of values the wrapper passes to `next` (each list entry is one
`next` call made by the wrapper itself). -/
def asyncHandler (fn : JsValue → HandlerOutcome) (req : JsValue) : List JsValue :=
  promiseCatch (fn req) (fun e => [e])

/-! ## Helper lemmas -/

theorem bumpState_self (s : RLState) (ip : String) : bumpState s ip ip = s ip + 1 := by
  simp [bumpState]

theorem bumpState_other (s : RLState) (ip j : String) (h : j ≠ ip) :
    bumpState s ip j = s j := by
  simp [bumpState, h]

theorem rlFinal_count (maxReq : Nat) (l : List String) (s : RLState) (ip : String)
    (h : s ip ≤ maxReq) :
    rlFinal maxReq l s ip = min maxReq (s ip + l.count ip) := by
  induction l generalizing s with
  | nil =>
      simp only [rlFinal, List.count_nil]
      omega
  | cons j rest ih =>
      by_cases hj : s j < maxReq
      · by_cases hij : j = ip
        · subst hij
          rw [rlFinal, rlStep, if_pos hj]
          rw [ih (bumpState s j) (by rw [bumpState_self]; omega)]
          rw [bumpState_self, List.count_cons_self]
          omega
        · rw [rlFinal, rlStep, if_pos hj]
          rw [ih (bumpState s j) (by rw [bumpState_other s j ip (fun hc => hij hc.symm)]; exact h)]
          rw [bumpState_other s j ip (fun hc => hij hc.symm)]
          rw [List.count_cons_of_ne (fun hc : ip = j => hij hc.symm)]
      · rw [rlFinal, rlStep, if_neg hj]
        rw [ih s h]
        by_cases hij : j = ip
        · subst hij
          rw [List.count_cons_self]
          omega
        · rw [List.count_cons_of_ne (fun hc : ip = j => hij hc.symm)]

theorem rlFinal_allowed (maxReq : Nat) (l : List String) (s : RLState) (ip : String) :
    rlFinal maxReq l s ip = s ip + rlAllowedFor maxReq ip l s := by
  induction l generalizing s with
  | nil => simp [rlFinal, rlAllowedFor]
  | cons j rest ih =>
      rw [rlFinal, rlAllowedFor]
      by_cases hj : s j < maxReq
      · by_cases hij : j = ip
        · subst hij
          rw [ih]
          simp only [rlStep, if_pos hj, Option.isNone_none, and_true, bumpState_self]
          simp
          omega
        · rw [ih]
          simp only [rlStep, if_pos hj, Option.isNone_none, and_true,
            bumpState_other s j ip (fun hc => hij hc.symm)]
          simp [hij]
      · rw [ih]
        simp [rlStep, if_neg hj]

theorem rlAllowedFor_eq_min (maxReq : Nat) (l : List String) (ip : String) :
    rlAllowedFor maxReq ip l rlInit = min maxReq (l.count ip) := by
  have h1 := rlFinal_count maxReq l rlInit ip (by simp [rlInit])
  have h2 := rlFinal_allowed maxReq l rlInit ip
  simp [rlInit] at h1 h2
  omega

theorem ratTrunc_eq_floor (q : ℚ) (h : 0 ≤ q) : ratTrunc q = ⌊q⌋ := by
  rcases (Rat.num_nonneg.mpr h).lt_or_eq with hpos | hzero
  · rw [ratTrunc, Int.sign_eq_one_of_pos hpos, one_mul, Rat.floor_def]
    rw [← Int.natAbs_of_nonneg hpos.le]
    exact Int.natCast_div q.num.natAbs q.den
  · have hq : q = 0 := Rat.num_eq_zero.mp hzero.symm
    subst hq
    simp [ratTrunc]

theorem jsRem_eq_floorMod (u : ℚ) (h : 0 ≤ u) :
    jsRem u 60 = u - 60 * ⌊u / 60⌋ := by
  rw [jsRem, ratTrunc_eq_floor (u / 60) (by positivity)]

/-! ## Claims -/

/-- C1 counterexample: the claim's "otherwise respond 500 with the generic
message" branch fails on the code.  The thrown object
`{message: "Non-error object", code: "CUSTOM_CODE"}` does not structurally
match the expected typed-error shape, yet the handler answers with the
value's own message rather than "Internal Server Error"; likewise the
plain `Error` carrying `statusCode: 422` does not match the shape, yet the
response status is 422, not 500. -/
theorem shapeRule_counterexample :
    matchesAPIErrorShape
        (.vObj [("message", .vStr "Non-error object"), ("code", .vStr "CUSTOM_CODE")]) = false ∧
    errorHandler .production
        (.other (.vObj [("message", .vStr "Non-error object"), ("code", .vStr "CUSTOM_CODE")]))
      = (500, failureBody "Non-error object" ERROR_CODES_UNEXPECTED_ERROR .vNull) ∧
    "Non-error object" ≠ "Internal Server Error" ∧
    matchesAPIErrorShape
        (.vObj [("message", .vStr "Custom Error"), ("statusCode", .vNum 422)]) = false ∧
    (errorHandler .production
        (.other (.vObj [("message", .vStr "Custom Error"), ("statusCode", .vNum 422)]))).1 = 422 ∧
    (errorHandler .production
        (.other (.vObj [("message", .vStr "Custom Error"), ("statusCode", .vNum 422)]))).1 ≠ 500 :=
  ⟨rfl, rfl, by decide, rfl, rfl, by show (422 : ℚ) ≠ 500; norm_num⟩

/-- C1 (amended): the error-handling middleware applies the spec's
shape rule field by field rather than to the thrown value as a whole: an
`APIError` is rendered with its own status, message, error code and
details; any other value is rendered with its own `statusCode` field
whenever that field is a number (500 otherwise) and its own `message`
field whenever that field is a string ("Internal Server Error"
otherwise), with error code `UNEXPECTED_ERROR` and environment-dependent
details. -/
theorem errorHandler_fieldwise_rule (mode : EnvMode) (v : JsValue) :
    errorHandler mode (.other v)
      = ((v.getNumField "statusCode").getD 500,
         failureBody ((v.getStrField "message").getD "Internal Server Error")
           ERROR_CODES_UNEXPECTED_ERROR
           (if mode = .development then
              .vObj [("stack", (v.getField "stack").getD .vNull), ("originalError", v)]
            else .vNull)) ∧
    ∀ e : APIError, errorHandler mode (.apiError e) = (e.statusCode, e.toResponse) := by
  constructor
  · rw [errorHandler]
    rcases hn : v.getNumField "statusCode" with _ | q <;>
      rcases hs : v.getStrField "message" with _ | m <;>
        simp [hn, hs, Option.getD]
  · intro e
    rfl

/-- C2: the error-handling middleware is total and deterministic — for
every thrown value (typed `APIError`, generic error object, plain object,
or primitive) and every environment it yields exactly one status/body
pair, the body always passes the structural failure-envelope check
`{success: false, message: string, errorCode: string, details}`, and equal
thrown values yield equal responses. -/
theorem errorHandler_total_deterministic (mode : EnvMode) (t : Thrown) :
    isFailureEnvelope (errorHandler mode t).2 = true ∧
    (∀ t' : Thrown, t' = t → errorHandler mode t' = errorHandler mode t) := by
  constructor
  · cases t with
    | apiError e => rfl
    | other v => rfl
  · intro t' h
    rw [h]

/-- C2 witness: the failure-envelope shape and determinism at the
primitive thrown value `"String error"`. -/
theorem errorHandler_total_deterministic_witness :
    isFailureEnvelope (errorHandler .production (.other (.vStr "String error"))).2 = true ∧
    errorHandler .production (.other (.vStr "String error"))
      = errorHandler .production (.other (.vStr "String error")) :=
  ⟨(errorHandler_total_deterministic .production (.other (.vStr "String error"))).1,
   (errorHandler_total_deterministic .production (.other (.vStr "String error"))).2
     (.other (.vStr "String error")) rfl⟩

/-- C3 counterexample: a rate-limited request is answered by the app with
the limiter's canned body `{success: false, message: ...}`, which is
neither the success envelope nor the failure envelope — it has no
`errorCode` and no `details` field. -/
theorem envelope_counterexample :
    appRespond .production true 0 none "GET" "/api/v1/health" = (429, rateLimitMessage) ∧
    isFailureEnvelope rateLimitMessage = false ∧
    isSuccessEnvelope rateLimitMessage = false :=
  ⟨rfl, rfl, rfl⟩

/-- C3 (amended): every response the app can emit is the success envelope
`{success: true, message, data}` or the failure envelope
`{success: false, message, errorCode, details}`, except the rate-limited
429 response, whose body is the bare `{success: false, message}` object,
and the documentation endpoints, which serve the raw OpenAPI document and
the Swagger UI page. -/
theorem envelope_invariant (mode : EnvMode) (limited : Bool) (uptime : ℚ)
    (ver : Option String) (method path : String) :
    isSuccessEnvelope (appRespond mode limited uptime ver method path).2 = true ∨
    isFailureEnvelope (appRespond mode limited uptime ver method path).2 = true ∨
    (appRespond mode limited uptime ver method path).2 = rateLimitMessage ∨
    (appRespond mode limited uptime ver method path).2 = swaggerSpecValue ver ∨
    (appRespond mode limited uptime ver method path).2 = .vStr docsHtmlPage := by
  rw [appRespond]
  by_cases hl : limited
  · simp [hl]
  · simp only [hl, if_false, Bool.false_eq_true]
    rcases hr : routeMatch method path with _ | r
    · right; left; rfl
    · cases r
      · left; rfl
      · left; rfl
      · right; right; right; left; rfl
      · right; right; right; right; rfl

/-- C4 counterexample: the error-code/status relation of the responses is
not 1:1.  `UNEXPECTED_ERROR` is emitted both with status 422 (an error
object carrying `statusCode: 422`) and with status 500 (a generic error),
so one code occurs with two statuses; and a default `APIError`
(`INTERNAL_ERROR`) is emitted with the same status 500 as
`UNEXPECTED_ERROR`, so two distinct codes occur with one status. -/
theorem errorCode_mapping_counterexample :
    (errorHandler .production
        (.other (.vObj [("statusCode", .vNum 422), ("message", .vStr "Custom Error")]))).1 = 422 ∧
    (errorHandler .production
        (.other (.vObj [("statusCode", .vNum 422), ("message", .vStr "Custom Error")]))).2.getField
        "errorCode" = some (.vStr ERROR_CODES_UNEXPECTED_ERROR) ∧
    (errorHandler .production
        (.other (.vObj [("message", .vStr "Standard JavaScript Error")]))).1 = 500 ∧
    (errorHandler .production
        (.other (.vObj [("message", .vStr "Standard JavaScript Error")]))).2.getField
        "errorCode" = some (.vStr ERROR_CODES_UNEXPECTED_ERROR) ∧
    (errorHandler .production (.apiError (APIError.throwInternal))).1 = 500 ∧
    (errorHandler .production (.apiError (APIError.throwInternal))).2.getField "errorCode"
      = some (.vStr ERROR_CODES_INTERNAL_ERROR) ∧
    ERROR_CODES_INTERNAL_ERROR ≠ ERROR_CODES_UNEXPECTED_ERROR ∧
    (422 : ℚ) ≠ 500 :=
  ⟨rfl, rfl, rfl, rfl, rfl, rfl, by decide, by norm_num⟩

/-- The APIError helper constructors paired with their error codes and
statuses. -/
def apiErrorHelperTable : List (String × ℚ) :=
  [APIError.throwBadRequest, APIError.throwUnauthorized, APIError.throwNotFound,
   APIError.throwConflict, APIError.throwInternal].map fun e => (e.errorCode, e.statusCode)

/-- C4 (amended): the `APIError` helper constructors do realise a fixed
1:1 code-to-status table (`BAD_REQUEST` 400, `UNAUTHORIZED` 401,
`NOT_FOUND` 404, `CONFLICT` 409, `INTERNAL_ERROR` 500 — pairwise distinct
on both sides), but the enumeration as a whole is not mapped 1:1 to
statuses: the handler emits `UNEXPECTED_ERROR` with whatever numeric
`statusCode` the thrown value carries (default 500, which `INTERNAL_ERROR`
also occupies). -/
theorem errorCode_mapping_amended :
    apiErrorHelperTable
      = [(ERROR_CODES_BAD_REQUEST, 400), (ERROR_CODES_UNAUTHORIZED, 401),
         (ERROR_CODES_NOT_FOUND, 404), (ERROR_CODES_CONFLICT, 409),
         (ERROR_CODES_INTERNAL_ERROR, 500)] ∧
    apiErrorHelperTable.Pairwise (fun a b => a.1 ≠ b.1 ∧ a.2 ≠ b.2) ∧
    (∀ (mode : EnvMode) (v : JsValue) (q : ℚ), v.getNumField "statusCode" = some q →
      (errorHandler mode (.other v)).1 = q ∧
      (errorHandler mode (.other v)).2.getField "errorCode"
        = some (.vStr ERROR_CODES_UNEXPECTED_ERROR)) := by
  refine ⟨rfl, by decide, ?_⟩
  intro mode v q h
  rw [errorHandler]
  exact ⟨by simp [h], rfl⟩

/-- C4 witness: the handler at an object carrying `statusCode: 422`
answers 422 with code `UNEXPECTED_ERROR`. -/
theorem errorCode_mapping_amended_witness :
    (errorHandler .test (.other (.vObj [("statusCode", .vNum 422)]))).1 = 422 ∧
    (errorHandler .test (.other (.vObj [("statusCode", .vNum 422)]))).2.getField "errorCode"
      = some (.vStr ERROR_CODES_UNEXPECTED_ERROR) :=
  errorCode_mapping_amended.2.2 .test (.vObj [("statusCode", .vNum 422)]) 422 rfl

/-- C5: a single global rate limiter governs every request: the app
pipeline contains exactly one rate-limiting middleware and it sits before
the router; for every IP, exactly `min max count` of its requests in a
window pass (so at most the configured maximum succeed, and the tally of
an IP depends only on that IP's own requests — distinct IPs are counted
independently); and once an IP's count has reached the maximum, every
further request from it in the window is answered 429 with the canned
`{success: false, message: "Too many requests from this IP, please try
again later."}` body. -/
theorem globalRateLimiter_spec (maxReq : Nat) :
    (appPipeline.count .rateLimiter = 1 ∧
      appPipeline.indexOf .rateLimiter < appPipeline.indexOf .apiRouter) ∧
    (∀ (ips : List String) (ip : String),
      rlAllowedFor maxReq ip ips rlInit = min maxReq (ips.count ip)) ∧
    (∀ (ips : List String) (ip : String), rlAllowedFor maxReq ip ips rlInit ≤ maxReq) ∧
    (∀ (s : RLState) (ip : String), maxReq ≤ s ip →
      rlStep maxReq s ip = (s, some (429, rateLimitMessage))) := by
  refine ⟨by decide, rlAllowedFor_eq_min maxReq, ?_, ?_⟩
  · intro ips ip
    rw [rlAllowedFor_eq_min]
    exact min_le_left _ _
  · intro s ip h
    rw [rlStep, if_neg (by omega)]

/-- C5 witness: with a maximum of 2, a saturated counter answers 429 with
the canned body, and three requests from one IP admit exactly two. -/
theorem globalRateLimiter_spec_witness :
    rlStep 2 (fun _ => 2) "192.168.1.1" = ((fun _ => 2), some (429, rateLimitMessage)) ∧
    rlAllowedFor 2 "192.168.1.1" ["192.168.1.1", "192.168.1.1", "192.168.1.1"] rlInit
      = min 2 (["192.168.1.1", "192.168.1.1", "192.168.1.1"].count "192.168.1.1") :=
  ⟨(globalRateLimiter_spec 2).2.2.2 (fun _ => 2) "192.168.1.1" (le_refl 2),
   (globalRateLimiter_spec 2).2.1 ["192.168.1.1", "192.168.1.1", "192.168.1.1"] "192.168.1.1"⟩

/-- C6: `GET /api/v1/health` (not rate-limited) always returns 200 with
`success: true`, message "Service is healthy", and data whose
`uptimeSeconds` is the process uptime `u` and whose `uptimeFormatted` is
the floor of `u / 60` in minutes and the floor of `u mod 60` in seconds,
so the formatted string is consistent with `uptimeSeconds`. -/
theorem health_endpoint_spec (mode : EnvMode) (uptime : ℚ) (ver : Option String)
    (h : 0 ≤ uptime) :
    appRespond mode false uptime ver "GET" "/api/v1/health"
      = (200, successBody "Service is healthy"
          (.vObj [("uptimeSeconds", .vNum uptime),
                  ("uptimeFormatted", .vStr (toString ⌊uptime / 60⌋ ++ "m "
                    ++ toString ⌊uptime - 60 * ⌊uptime / 60⌋⌋ ++ "s"))])) := by
  have hroute : routeMatch "GET" "/api/v1/health" = some .health := rfl
  rw [appRespond]
  simp only [Bool.false_eq_true, if_false, hroute]
  rw [healthHandler, formatUptime, jsRem_eq_floorMod uptime h]
  rfl

/-- C6 witness: the health response at uptime 0. -/
theorem health_endpoint_spec_witness :
    (0 : ℚ) ≤ 0 ∧
    appRespond .test false 0 none "GET" "/api/v1/health"
      = (200, successBody "Service is healthy"
          (.vObj [("uptimeSeconds", .vNum 0),
                  ("uptimeFormatted", .vStr (toString ⌊(0 : ℚ) / 60⌋ ++ "m "
                    ++ toString ⌊(0 : ℚ) - 60 * ⌊(0 : ℚ) / 60⌋⌋ ++ "s"))])) :=
  ⟨le_refl 0, health_endpoint_spec .test 0 none (le_refl 0)⟩

/-- C7: `connectDB` makes exactly one connection attempt, at the URI
`MONGODB_URI + "/" + DB_NAME`; on success it returns the driver's
connection instance, and on failure it rethrows the driver's error value
unchanged, whereupon `startServer` exits with code 1. -/
theorem connectDB_spec (e : EnvConfig) (driver : String → Except JsValue MongooseInstance) :
    (connectDBRun e driver).1 = [e.MONGODB_URI ++ "/" ++ e.DB_NAME] ∧
    (∀ c, driver (mongoUri e) = .ok c → (connectDBRun e driver).2 = .ok c) ∧
    (∀ err, driver (mongoUri e) = .error err →
      (connectDBRun e driver).2 = .error err ∧ startServer e driver = .exited 1) := by
  refine ⟨?_, ?_, ?_⟩
  · rw [connectDBRun]
    cases hd : driver (mongoUri e) <;> simp [hd, mongoUri]
  · intro c hc
    simp [connectDBRun, hc]
  · intro err herr
    exact ⟨by simp [connectDBRun, herr], by simp [startServer, connectDBRun, herr]⟩

/-- C7 witness: a refused connection is propagated unchanged and the
server exits with code 1; a successful connection returns the driver's
instance. -/
theorem connectDB_spec_witness :
    ((connectDBRun ⟨.test, 3000, "mongodb://127.0.0.1:27017", "infinity_test"⟩
        (fun _ => .error (.vStr "connect ECONNREFUSED"))).2
      = .error (.vStr "connect ECONNREFUSED") ∧
     startServer ⟨.test, 3000, "mongodb://127.0.0.1:27017", "infinity_test"⟩
        (fun _ => .error (.vStr "connect ECONNREFUSED")) = .exited 1) ∧
    (connectDBRun ⟨.test, 3000, "mongodb://127.0.0.1:27017", "infinity_test"⟩
        (fun _ => .ok ⟨"127.0.0.1"⟩)).2 = .ok ⟨"127.0.0.1"⟩ :=
  ⟨(connectDB_spec ⟨.test, 3000, "mongodb://127.0.0.1:27017", "infinity_test"⟩
      (fun _ => .error (.vStr "connect ECONNREFUSED"))).2.2
        (.vStr "connect ECONNREFUSED") rfl,
   (connectDB_spec ⟨.test, 3000, "mongodb://127.0.0.1:27017", "infinity_test"⟩
      (fun _ => .ok ⟨"127.0.0.1"⟩)).2.1 ⟨"127.0.0.1"⟩ rfl⟩

/-- C8: every request matching no registered route — any unregistered
path (including the root) or an unsupported method on an existing path —
receives 404 with body `{success: false, message: "Resource not found",
errorCode: "NOT_FOUND", details: null}`, produced by the catch-all that
`app.ts` mounts after the router. -/
theorem notFound_catchAll_spec (mode : EnvMode) (uptime : ℚ) (ver : Option String)
    (method path : String) (h : routeMatch method path = none) :
    appRespond mode false uptime ver method path
      = (404, failureBody "Resource not found" ERROR_CODES_NOT_FOUND .vNull) ∧
    appPipeline.indexOf .apiRouter < appPipeline.indexOf .notFoundCatchAll := by
  refine ⟨?_, by decide⟩
  rw [appRespond]
  simp only [Bool.false_eq_true, if_false, h]
  rfl

/-- C8 witness: the root path and a `POST` to the health path are both
unrouted and get the 404 failure envelope. -/
theorem notFound_catchAll_witness :
    routeMatch "GET" "/" = none ∧
    routeMatch "POST" "/api/v1/health" = none ∧
    appRespond .test false 0 none "GET" "/"
      = (404, failureBody "Resource not found" ERROR_CODES_NOT_FOUND .vNull) ∧
    appRespond .test false 0 none "POST" "/api/v1/health"
      = (404, failureBody "Resource not found" ERROR_CODES_NOT_FOUND .vNull) :=
  ⟨rfl, rfl, (notFound_catchAll_spec .test 0 none "GET" "/" rfl).1,
   (notFound_catchAll_spec .test 0 none "POST" "/api/v1/health" rfl).1⟩

/-- C9: a handler wrapped by `asyncHandler` never has the wrapper call
`next` when it resolves (whatever the resolved value), and when it throws
or rejects with any value `v` whatsoever the wrapper calls `next` exactly
once with exactly `v`, unchanged. -/
theorem asyncHandler_spec (fn : JsValue → HandlerOutcome) (req : JsValue) :
    (∀ v, fn req = .resolves v → asyncHandler fn req = []) ∧
    (∀ v, fn req = .rejects v → asyncHandler fn req = [v]) := by
  constructor <;> intro v h <;> simp [asyncHandler, promiseCatch, h]

/-- C9 witness: a handler resolving to `undefined` triggers no `next`
call; one rejecting with the primitive `"String error"` triggers exactly
`next("String error")`. -/
theorem asyncHandler_spec_witness :
    asyncHandler (fun _ => .resolves .vUndefined) .vNull = [] ∧
    asyncHandler (fun _ => .rejects (.vStr "String error")) .vNull = [.vStr "String error"] :=
  ⟨(asyncHandler_spec (fun _ => .resolves .vUndefined) .vNull).1 .vUndefined rfl,
   (asyncHandler_spec (fun _ => .rejects (.vStr "String error")) .vNull).2
     (.vStr "String error") rfl⟩

/-- C10: for a non-`APIError` thrown value, the `details` field of the
failure response is environment-dependent: `null` in production (and
test) mode — no stack trace reaches the client — while in development
mode it is an object exposing the stack trace and the original thrown
value. -/
theorem unexpected_details_by_env (v : JsValue) :
    (errorHandler .production (.other v)).2.getField "details" = some .vNull ∧
    (errorHandler .test (.other v)).2.getField "details" = some .vNull ∧
    (errorHandler .development (.other v)).2.getField "details"
      = some (.vObj [("stack", (v.getField "stack").getD .vNull), ("originalError", v)]) ∧
    ((errorHandler .development (.other v)).2.getField "details").bind
        (fun d => d.getField "originalError") = some v :=
  ⟨rfl, rfl, rfl, rfl⟩

end Infinity
